import Mathlib

/-!
Verification of the coloring-dynamics core of `graph_dynamics.py`.

A graph coloring is a total assignment of colors to the vertices of a graph.
The source provides four update rules (majority, plurality, GSL2, GSL3), an
iterator `run_rule` that applies a rule until a fixed point or a step cap,
and a Monte Carlo driver `run_rule_many_times` that aggregates statistics
over many trials.

The embedding below translates each of these functions directly from the
source.  Python `assert` statements are modelled with `Except String`;
thresholds (Python floats such as `0.5`) are modelled as rationals, which is
exact for every literal appearing in the source; the Python random source is
abstracted by indexing the generators with the trial number.
-/

namespace GraphDynamics

/-- The part of a Sage graph the update rules consult: `vertex_iterator`,
`is_directed`, `neighbor_iterator` and `neighbor_in_iterator`. -/
structure Graph (V : Type) where
  vertices : List V
  directed : Bool
  neighbors : V → List V
  inNeighbors : V → List V

/-- `neighbor_iter` as chosen in each rule:
`G.neighbor_in_iterator` if `G.is_directed()` else `G.neighbor_iterator`. -/
def Graph.neighborIter {V : Type} (G : Graph V) (x : V) : List V :=
  if G.directed then G.inNeighbors x else G.neighbors x

/-- The colors of x's relevant neighbors, in iteration order
(the loop `for y in neighbor_iter(x): color = coloring[y]`). -/
def nbColorList {V C : Type} (G : Graph V) (coloring : V → C) (x : V) : List C :=
  (G.neighborIter x).map coloring

-- Color update rules --------------------------------------------------------

/-- `nb_color_count.most_common(1)[0]`: a pair of a color with the highest
count among `l` and that count.  The source's tie-break among several colors
at the maximum is an artifact of Python dict ordering; here it is the first
such color in neighbor iteration order (no claim depends on the tie-break).
`none` corresponds to the source's `IndexError` branch on an empty counter,
where `(max_color, max_count) = (None, 0)`. -/
def most_common {C : Type} [DecidableEq C] (l : List C) : Option (C × Nat) :=
  l.foldl (fun acc c =>
    match acc with
    | none => some (c, l.count c)
    | some p => if l.count c > p.2 then some (c, l.count c) else acc) none

/-- Loop body of `majority_rule` for one vertex, given the colors of its
relevant neighbors and its old color.  When the counter is empty the source
sets `max_count = 0` and `0 > 0.5 * 0` is false, so the old color is kept. -/
def majority_vertex {C : Type} [DecidableEq C] (ncolors : List C) (x_color : C) : C :=
  match most_common ncolors with
  | some (max_color, max_count) =>
    if (max_count : ℚ) > (1 / 2) * ncolors.length then max_color else x_color
  | none => x_color

/-- `majority_rule(graph, coloring)`: each vertex becomes the color occurring
in the majority (more than half) of its neighbors, else keeps its color. -/
def majority_rule {V C : Type} [DecidableEq C] (graph : Graph V) (coloring : V → C) :
    List (V × C) :=
  graph.vertices.map fun x =>
    (x, majority_vertex (nbColorList graph coloring x) (coloring x))

/-- Loop body of `plurality_rule` for one vertex: become the most frequent
neighbor color when its frequency exceeds 1, else keep the old color. -/
def plurality_vertex {C : Type} [DecidableEq C] (ncolors : List C) (x_color : C) : C :=
  match most_common ncolors with
  | some (max_color, max_count) => if max_count > 1 then max_color else x_color
  | none => x_color

/-- `plurality_rule(graph, coloring)`. -/
def plurality_rule {V C : Type} [DecidableEq C] (graph : Graph V) (coloring : V → C) :
    List (V × C) :=
  graph.vertices.map fun x =>
    (x, plurality_vertex (nbColorList graph coloring x) (coloring x))

/-- Loop body of `gsl2_rule` for one vertex: only neighbors colored green or
yellow are tallied (`if color in {green, yellow}`), so `num_neighbors`, the
sum of the tallies, counts only those neighbors.  If green exceeds the
fraction `T` of them, the vertex becomes green; otherwise it keeps its
color. -/
def gsl2_vertex {C : Type} [DecidableEq C] (ncolors : List C)
    (x_color green yellow : C) (T : ℚ) : C :=
  let counted := ncolors.filter fun c => decide (c = green ∨ c = yellow)
  if (counted.count green : ℚ) > T * counted.length then green else x_color

/-- `gsl2_rule(graph, coloring, palette, T)`, with the source's two `assert`
statements modelled as `Except.error`.  The `IndexError` branch is
unreachable: two distinct colors force the palette to have length ≥ 2. -/
def gsl2_rule {V C : Type} [DecidableEq C] (graph : Graph V) (coloring : V → C)
    (palette : List C) (T : ℚ) : Except String (List (V × C)) :=
  if palette.dedup.length = 2 then
    if 0 ≤ T ∧ T ≤ 1 then
      match palette with
      | green :: yellow :: _ =>
        .ok (graph.vertices.map fun x =>
          (x, gsl2_vertex (nbColorList graph coloring x) (coloring x) green yellow T))
      | _ => .error "IndexError: list index out of range"
    else .error "Need 0 <= T <= 1"
  else .error "palette must contain exactly 2 different colors"

/-- The five-case decision of `gsl3_rule` for one vertex, in the source's
priority order, from the green count, red count and `num_neighbors` of the
vertex. -/
def gsl3_decide {C : Type} [DecidableEq C]
    (green_count red_count num_neighbors : Nat)
    (x_color green red yellow : C) (T t s : ℚ) : C :=
  if (green_count : ℚ) > T * num_neighbors then green
  else if (red_count : ℚ) > T * num_neighbors then red
  else if x_color = green ∧ (green_count : ℚ) < t * num_neighbors ∧
      (red_count : ℚ) ≥ s * num_neighbors then yellow
  else if x_color = red ∧ (red_count : ℚ) < t * num_neighbors ∧
      (green_count : ℚ) ≥ s * num_neighbors then yellow
  else x_color

/-- Loop body of `gsl3_rule` for one vertex.  Unlike `gsl2_rule`, the source
tallies EVERY neighbor color without filtering (`nb_color_count[color] += 1`
with no membership test), so `num_neighbors`, the sum of all tallies, is the
total number of neighbors, including any whose color lies outside the
palette. -/
def gsl3_vertex {C : Type} [DecidableEq C] (ncolors : List C)
    (x_color green red yellow : C) (T t s : ℚ) : C :=
  gsl3_decide (ncolors.count green) (ncolors.count red) ncolors.length
    x_color green red yellow T t s

/-- `gsl3_rule(graph, coloring, palette, T, t, s)`, with the source's three
`assert` statements modelled as `Except.error`, in order.  The `IndexError`
branch is unreachable: three distinct colors force length ≥ 3. -/
def gsl3_rule {V C : Type} [DecidableEq C] (graph : Graph V) (coloring : V → C)
    (palette : List C) (T t s : ℚ) : Except String (List (V × C)) :=
  if palette.dedup.length = 3 then
    if 0 ≤ T ∧ T ≤ 1 ∧ 0 ≤ s ∧ s ≤ 1 ∧ 0 ≤ t ∧ t ≤ 1 then
      if s + t ≤ T then
        match palette with
        | green :: red :: yellow :: _ =>
          .ok (graph.vertices.map fun x =>
            (x, gsl3_vertex (nbColorList graph coloring x) (coloring x)
              green red yellow T t s))
        | _ => .error "IndexError: list index out of range"
      else .error "Need s + t <= T"
    else .error "Need 0 <= T <= 1 and 0 <= s <= 1 and 0 <= t <= 1"
  else .error "palette must contain exactly 3 different colors"

/-- The parameter precondition `gsl2_rule` enforces with its asserts. -/
def gsl2_valid_params {C : Type} [DecidableEq C] (palette : List C) (T : ℚ) : Prop :=
  palette.dedup.length = 2 ∧ 0 ≤ T ∧ T ≤ 1

/-- The parameter precondition `gsl3_rule` enforces with its asserts. -/
def gsl3_valid_params {C : Type} [DecidableEq C] (palette : List C) (T t s : ℚ) : Prop :=
  palette.dedup.length = 3 ∧
  (0 ≤ T ∧ T ≤ 1 ∧ 0 ≤ s ∧ s ≤ 1 ∧ 0 ≤ t ∧ t ≤ 1) ∧
  s + t ≤ T

/-- Whether an `Except` value is a success. -/
def exceptOk {ε α : Type} : Except ε α → Bool
  | .ok _ => true
  | .error _ => false

-- Iterator ------------------------------------------------------------------

/-- The loop body of `run_rule`: starting from the trajectory's last element
`last` with `fuel` loop iterations remaining, return the colorings appended
after `last`, the `stabilized` flag, and the number of rule evaluations
performed (one per executed loop iteration). -/
def runRuleAux {α : Type} [DecidableEq α] (f : α → α) : α → Nat → List α × Bool × Nat
  | _, 0 => ([], false, 0)
  | last, n + 1 =>
    let c := f last
    if c = last then
      -- Stabilized: break without appending a duplicate.
      ([], true, 1)
    else
      let r := runRuleAux f c n
      (c :: r.1, r.2.1, r.2.2 + 1)

/-- `run_rule(update_rule, update_rule_kwargs, graph, initial_coloring,
num_steps=10)`.  The update rule together with its kwargs and the graph is a
function `f` on colorings; the returned pair is `(s, stabilized)`. -/
def run_rule {α : Type} [DecidableEq α] (f : α → α) (initial_coloring : α)
    (num_steps : Nat := 10) : List α × Bool :=
  let r := runRuleAux f initial_coloring num_steps
  (initial_coloring :: r.1, r.2.1)

/-- Number of times `run_rule` evaluates the update rule: one evaluation per
executed iteration of its loop. -/
def run_rule_evals {α : Type} [DecidableEq α] (f : α → α) (initial_coloring : α)
    (num_steps : Nat) : Nat :=
  (runRuleAux f initial_coloring num_steps).2.2

-- Monte Carlo driver --------------------------------------------------------

/-- `run_rule_many_times(update_rule, update_rule_kwargs, graph_generator,
graph_generator_kwargs, coloring_function, coloring_function_kwargs,
num_steps=10, num_runs=1000, print_stats=True)`, without the purely
observational printing.  The shared random source is abstracted by indexing
the two generators with the trial number; `update_rule` arrives with its
kwargs already applied, and `urkPalette` carries what the lookup
`update_rule_kwargs` at key `palette` would find, `none` modelling a missing
key (a Python `KeyError`).  `ccount` is `color_count` for the coloring type;
`headD default` and `getLastD default` are `s[0]` and `s[-1]` (the trajectory
is never empty, so the default is never used).  NOTE, faithful to the source:
the trial loop calls `run_rule(ur, urk, G, ic)` WITHOUT forwarding
`num_steps`, so every trial runs with `run_rule`'s default cap of 10 and the
`num_steps` argument is unused; and the palette lookup happens before the
`if not N` early return. -/
def run_rule_many_times {GraphT α C : Type} [DecidableEq α] [DecidableEq C] [Inhabited α]
    (update_rule : GraphT → α → α)
    (urkPalette : Option (List C))
    (graph_generator : Nat → GraphT)
    (coloring_function : Nat → GraphT → α)
    (ccount : α → C → Nat)
    (num_steps : Nat := 10) (num_runs : Nat := 1000) :
    Except String (Nat × Option ℚ × Option (List (C × ℚ)) × Option (List (C × ℚ))) :=
  let results := (List.range num_runs).map fun i =>
    let G := graph_generator i
    let ic := coloring_function i G
    run_rule (update_rule G) ic
  let stabilized_runs := results.filter fun r => r.2
  let step_counts : List Nat := stabilized_runs.map fun r => r.1.length
  let initial_color_counts : List (C → Nat) :=
    stabilized_runs.map fun r col => ccount (r.1.headD default) col
  let final_color_counts : List (C → Nat) :=
    stabilized_runs.map fun r col => ccount (r.1.getLastD default) col
  match urkPalette with
  | none => .error "KeyError: palette"
  | some palette =>
    let N := step_counts.length
    if N = 0 then .ok (N, none, none, none)
    else
      let mean_steps : ℚ := (step_counts.sum : ℚ) / N
      let mean_initial_color_count := palette.map fun col =>
        (col, ((initial_color_counts.map fun c => c col).sum : ℚ) / N)
      let mean_final_color_count := palette.map fun col =>
        (col, ((final_color_counts.map fun c => c col).sum : ℚ) / N)
      .ok (N, some mean_steps, some mean_initial_color_count, some mean_final_color_count)

-- Auxiliary definitions for concrete instances ------------------------------

instance {e a : Type} [DecidableEq e] [DecidableEq a] : DecidableEq (Except e a) := fun x y =>
  match x, y with
  | .ok u, .ok v =>
    if h : u = v then .isTrue (by rw [h]) else .isFalse (by intro hc; cases hc; exact h rfl)
  | .error u, .error v =>
    if h : u = v then .isTrue (by rw [h]) else .isFalse (by intro hc; cases hc; exact h rfl)
  | .ok _, .error _ => .isFalse (by intro hc; cases hc)
  | .error _, .ok _ => .isFalse (by intro hc; cases hc)

instance : DecidableEq (Nat × Option ℚ × Option (List (Nat × ℚ)) × Option (List (Nat × ℚ))) :=
  instDecidableEqProd

/-- A concrete two-vertex undirected graph with one edge, for instantiating
the theorems below at concrete inputs. -/
def exG : Graph Nat where
  vertices := [0, 1]
  directed := false
  neighbors := fun x => if x = 0 then [1] else [0]
  inNeighbors := fun _ => []

/-- A concrete coloring of `exG` over the palette `[0, 1, 2]`
(green, red/yellow, yellow): vertex 0 is colored 2, vertex 1 is colored 0. -/
def exColoring : Nat → Nat := fun x => if x = 0 then 2 else 0

/-- What the claim about GSL3 tallying describes, following the spec's words
rather than the source: tally only the neighbors colored with one of the
three palette colors, so that a neighbor colored outside the palette
contributes neither to any per-color count nor to `num_neighbors`. -/
def gsl3_vertex_palette_only {C : Type} [DecidableEq C] (ncolors : List C)
    (x_color green red yellow : C) (T t s : ℚ) : C :=
  gsl3_vertex (ncolors.filter fun c => decide (c = green ∨ c = red ∨ c = yellow))
    x_color green red yellow T t s

-- Theorems ------------------------------------------------------------------

theorem runRuleAux_zero {α : Type} [DecidableEq α] (f : α → α) (last : α) :
    runRuleAux f last 0 = ([], false, 0) := rfl

theorem runRuleAux_succ {α : Type} [DecidableEq α] (f : α → α) (last : α) (n : Nat) :
    runRuleAux f last (n + 1) =
      if f last = last then ([], true, 1)
      else ((f last) :: (runRuleAux f (f last) n).1,
            (runRuleAux f (f last) n).2.1,
            (runRuleAux f (f last) n).2.2 + 1) := rfl

/-- Invariants of the tail produced by `runRuleAux`, by induction on the
remaining fuel: the appended colorings form a chain in which each element is
the image of its predecessor and differs from it; if the flag is false the
loop ran out of fuel, having appended one coloring per iteration; if the flag
is true the trajectory ends at a fixed point and no earlier element is one. -/
theorem runRuleAux_spec {α : Type} [DecidableEq α] (f : α → α) :
    ∀ (n : Nat) (last : α),
      List.Chain (fun a b => b = f a ∧ b ≠ a) last (runRuleAux f last n).1 ∧
      ((runRuleAux f last n).2.1 = false → (runRuleAux f last n).1.length = n) ∧
      ((runRuleAux f last n).2.1 = true →
        (∃ z, (last :: (runRuleAux f last n).1).getLast? = some z ∧ f z = z) ∧
        ∀ x ∈ (last :: (runRuleAux f last n).1).dropLast, f x ≠ x) := by
  intro n
  induction n with
  | zero =>
    intro last
    refine ⟨List.Chain.nil, fun _ => rfl, fun h => ?_⟩
    simp [runRuleAux] at h
  | succ n ih =>
    intro last
    by_cases h : f last = last
    · refine ⟨?_, ?_, ?_⟩
      · simp [runRuleAux_succ, h]
      · intro hfalse
        simp [runRuleAux_succ, h] at hfalse
      · intro _
        constructor
        · exact ⟨last, by simp [runRuleAux_succ, h], h⟩
        · intro x hx
          simp [runRuleAux_succ, h] at hx
    · have ihc := ih (f last)
      refine ⟨?_, ?_, ?_⟩
      · rw [runRuleAux_succ, if_neg h]
        exact List.Chain.cons ⟨rfl, h⟩ ihc.1
      · intro hfalse
        rw [runRuleAux_succ, if_neg h] at hfalse ⊢
        simp only [List.length_cons]
        rw [ihc.2.1 hfalse]
      · intro htrue
        rw [runRuleAux_succ, if_neg h] at htrue ⊢
        dsimp only at htrue ⊢
        have ihtrue := ihc.2.2 htrue
        constructor
        · obtain ⟨z, hz, hfz⟩ := ihtrue.1
          refine ⟨z, ?_, hfz⟩
          rw [List.getLast?_cons_cons]
          exact hz
        · intro x hx
          rw [List.dropLast_cons₂] at hx
          simp only [List.mem_cons] at hx
          rcases hx with hx | hx
          · rw [hx]; exact fun hc => h hc
          · exact ihtrue.2 x hx

/-- Claim C4: for every rule (given as the coloring-update function `f`), initial
coloring and step cap, the trajectory returned by `run_rule` is never empty,
starts with the initial coloring, and each later element is the rule's image
of its predecessor and differs from it (so no two consecutive elements are
equal); moreover either `stabilized = false` and the trajectory has length
`num_steps + 1`, or `stabilized = true` and the trajectory ends at a fixed
point of `f` while no earlier element is a fixed point (it stops at the
first stabilization witness). -/
theorem run_rule_trajectory_invariant {α : Type} [DecidableEq α]
    (f : α → α) (initial_coloring : α) (num_steps : Nat) :
    (run_rule f initial_coloring num_steps).1 ≠ [] ∧
    (run_rule f initial_coloring num_steps).1.head? = some initial_coloring ∧
    List.Chain (fun a b => b = f a ∧ b ≠ a) initial_coloring
      (run_rule f initial_coloring num_steps).1.tail ∧
    (((run_rule f initial_coloring num_steps).2 = false ∧
        (run_rule f initial_coloring num_steps).1.length = num_steps + 1) ∨
     ((run_rule f initial_coloring num_steps).2 = true ∧
        (∃ z, (run_rule f initial_coloring num_steps).1.getLast? = some z ∧ f z = z) ∧
        ∀ x ∈ (run_rule f initial_coloring num_steps).1.dropLast, f x ≠ x)) := by
  have spec := runRuleAux_spec f num_steps initial_coloring
  refine ⟨by simp [run_rule], rfl, spec.1, ?_⟩
  cases hb : (run_rule f initial_coloring num_steps).2 with
  | false =>
    left
    refine ⟨rfl, ?_⟩
    have hl := spec.2.1 hb
    show (runRuleAux f initial_coloring num_steps).1.length + 1 = num_steps + 1
    rw [hl]
  | true =>
    right
    exact ⟨rfl, (spec.2.2 hb).1, (spec.2.2 hb).2⟩

/-- Claim C5: if the initial coloring is already a fixed point of the rule and the
step cap is at least one, `run_rule` returns the one-element trajectory
`[initial_coloring]` with `stabilized = true`, after exactly one evaluation
of the rule. -/
theorem run_rule_at_fixed_point {α : Type} [DecidableEq α]
    (f : α → α) (initial_coloring : α) (num_steps : Nat)
    (hfix : f initial_coloring = initial_coloring) (hpos : 1 ≤ num_steps) :
    run_rule f initial_coloring num_steps = ([initial_coloring], true) ∧
    run_rule_evals f initial_coloring num_steps = 1 := by
  obtain ⟨m, rfl⟩ : ∃ m, num_steps = m + 1 := ⟨num_steps - 1, by omega⟩
  constructor
  · simp [run_rule, runRuleAux_succ, hfix]
  · simp [run_rule_evals, runRuleAux_succ, hfix]

theorem run_rule_at_fixed_point_witness :
    run_rule (fun n => n : Nat → Nat) 0 10 = ([0], true) ∧
    run_rule_evals (fun n => n : Nat → Nat) 0 10 = 1 :=
  run_rule_at_fixed_point (fun n => n) 0 10 rfl (by norm_num)

theorem map_fst_map_pair {A B : Type} (f : A → B) (l : List A) :
    (l.map fun x => (x, f x)).map Prod.fst = l := by
  induction l with
  | nil => rfl
  | cons a l ih => simp [ih]

theorem dedup_short2 {C : Type} [DecidableEq C] (green : C) :
    ¬([green] : List C).dedup.length = 2 := by
  intro heq
  have hle := (List.dedup_sublist [green]).length_le
  rw [heq] at hle
  norm_num at hle

theorem dedup_short3a {C : Type} [DecidableEq C] (green : C) :
    ¬([green] : List C).dedup.length = 3 := by
  intro heq
  have hle := (List.dedup_sublist [green]).length_le
  rw [heq] at hle
  norm_num at hle

theorem dedup_short3b {C : Type} [DecidableEq C] (green red : C) :
    ¬([green, red] : List C).dedup.length = 3 := by
  intro heq
  have hle := (List.dedup_sublist [green, red]).length_le
  rw [heq] at hle
  norm_num at hle

theorem gsl2_rule_ok_elim {V C : Type} [DecidableEq C] {G : Graph V}
    {coloring : V → C} {palette : List C} {T : ℚ} {out : List (V × C)}
    (h : gsl2_rule G coloring palette T = .ok out) :
    ∃ green yellow rest, palette = green :: yellow :: rest ∧
      out = G.vertices.map fun x =>
        (x, gsl2_vertex (nbColorList G coloring x) (coloring x) green yellow T) := by
  rcases palette with _ | ⟨green, _ | ⟨yellow, rest⟩⟩
  · simp [gsl2_rule] at h
  · simp [gsl2_rule, dedup_short2 green] at h
  · rw [gsl2_rule] at h
    by_cases h1 : (green :: yellow :: rest).dedup.length = 2
    · by_cases h2 : 0 ≤ T ∧ T ≤ 1
      · rw [if_pos h1, if_pos h2] at h
        injection h with h
        exact ⟨green, yellow, rest, rfl, h.symm⟩
      · rw [if_pos h1, if_neg h2] at h
        exact Except.noConfusion h
    · rw [if_neg h1] at h
      exact Except.noConfusion h

theorem gsl3_rule_ok_elim {V C : Type} [DecidableEq C] {G : Graph V}
    {coloring : V → C} {palette : List C} {T t s : ℚ} {out : List (V × C)}
    (h : gsl3_rule G coloring palette T t s = .ok out) :
    ∃ green red yellow rest, palette = green :: red :: yellow :: rest ∧
      out = G.vertices.map fun x =>
        (x, gsl3_vertex (nbColorList G coloring x) (coloring x)
          green red yellow T t s) := by
  rcases palette with _ | ⟨green, _ | ⟨red, _ | ⟨yellow, rest⟩⟩⟩
  · simp [gsl3_rule] at h
  · simp [gsl3_rule, dedup_short3a green] at h
  · simp [gsl3_rule, dedup_short3b green red] at h
  · rw [gsl3_rule] at h
    by_cases h1 : (green :: red :: yellow :: rest).dedup.length = 3
    · by_cases h2 : 0 ≤ T ∧ T ≤ 1 ∧ 0 ≤ s ∧ s ≤ 1 ∧ 0 ≤ t ∧ t ≤ 1
      · by_cases h3 : s + t ≤ T
        · rw [if_pos h1, if_pos h2, if_pos h3] at h
          injection h with h
          exact ⟨green, red, yellow, rest, rfl, h.symm⟩
        · rw [if_pos h1, if_pos h2, if_neg h3] at h
          exact Except.noConfusion h
      · rw [if_pos h1, if_neg h2] at h
        exact Except.noConfusion h
    · rw [if_neg h1] at h
      exact Except.noConfusion h

/-- Claim C7: on every graph and total input coloring, each of the four
update rules produces an association list whose keys are exactly the graph's
vertex list in order, assigning each vertex exactly one color (for GSL2 and
GSL3, on their successful results). -/
theorem rules_output_total_coloring {V C : Type} [DecidableEq C]
    (G : Graph V) (coloring : V → C) (palette2 : List C) (T2 : ℚ)
    (palette3 : List C) (T t s : ℚ) (out2 out3 : List (V × C))
    (h2 : gsl2_rule G coloring palette2 T2 = .ok out2)
    (h3 : gsl3_rule G coloring palette3 T t s = .ok out3) :
    (majority_rule G coloring).map Prod.fst = G.vertices ∧
    (plurality_rule G coloring).map Prod.fst = G.vertices ∧
    out2.map Prod.fst = G.vertices ∧
    out3.map Prod.fst = G.vertices := by
  refine ⟨map_fst_map_pair _ _, map_fst_map_pair _ _, ?_, ?_⟩
  · obtain ⟨g, y, r, _, rfl⟩ := gsl2_rule_ok_elim h2
    exact map_fst_map_pair _ _
  · obtain ⟨g, rd, y, r, _, rfl⟩ := gsl3_rule_ok_elim h3
    exact map_fst_map_pair _ _

theorem rules_output_total_coloring_witness :
    (majority_rule exG exColoring).map Prod.fst = exG.vertices ∧
    (plurality_rule exG exColoring).map Prod.fst = exG.vertices ∧
    ([(0, 0), (1, 0)] : List (Nat × Nat)).map Prod.fst = exG.vertices ∧
    ([(0, 0), (1, 0)] : List (Nat × Nat)).map Prod.fst = exG.vertices :=
  rules_output_total_coloring exG exColoring [0, 1] (1 / 2) [0, 1, 2]
    (1 / 2) (1 / 4) (1 / 4) [(0, 0), (1, 0)] [(0, 0), (1, 0)]
    (by with_unfolding_all decide) (by with_unfolding_all decide)

/-- Claim C6: under the GSL2 rule, every vertex's new color is either green
(`palette[0]`) or its old color; in particular yellow (`palette[1]`) is never
newly adopted by any vertex. -/
theorem gsl2_only_green_or_unchanged {V C : Type} [DecidableEq C]
    (G : Graph V) (coloring : V → C) (green yellow : C) (rest : List C) (T : ℚ)
    (out : List (V × C)) (x : V) (c : C)
    (hok : gsl2_rule G coloring (green :: yellow :: rest) T = .ok out)
    (hmem : (x, c) ∈ out) :
    c = green ∨ c = coloring x := by
  obtain ⟨g, y, r, hp, rfl⟩ := gsl2_rule_ok_elim hok
  obtain ⟨rfl, rfl, rfl⟩ : green = g ∧ yellow = y ∧ rest = r := by
    injection hp with h1 h2
    injection h2 with h2 h3
    exact ⟨h1, h2, h3⟩
  obtain ⟨v, hv, hvc⟩ := List.mem_map.mp hmem
  injection hvc with hvx hcc
  subst hvx
  rw [← hcc]
  unfold gsl2_vertex
  dsimp only
  split
  · exact Or.inl rfl
  · exact Or.inr rfl

theorem gsl2_only_green_or_unchanged_witness :
    (0 : Nat) = 0 ∨ (0 : Nat) = exColoring 0 :=
  gsl2_only_green_or_unchanged exG exColoring 0 1 [] (1 / 2)
    [(0, 0), (1, 0)] 0 0 (by with_unfolding_all decide) (by decide)

theorem gsl2_rule_isOk_iff {V C : Type} [DecidableEq C] (G : Graph V)
    (coloring : V → C) (palette : List C) (T : ℚ) :
    exceptOk (gsl2_rule G coloring palette T) = true ↔ gsl2_valid_params palette T := by
  rcases palette with _ | ⟨g, _ | ⟨y, r⟩⟩
  · simp [gsl2_rule, gsl2_valid_params, exceptOk]
  · simp [gsl2_rule, gsl2_valid_params, exceptOk, dedup_short2 g]
  · constructor
    · intro hok
      by_cases h1 : (g :: y :: r).dedup.length = 2
      · by_cases h2 : 0 ≤ T ∧ T ≤ 1
        · exact ⟨h1, h2⟩
        · rw [gsl2_rule, if_pos h1, if_neg h2] at hok
          exact absurd hok (by simp [exceptOk])
      · rw [gsl2_rule, if_neg h1] at hok
        exact absurd hok (by simp [exceptOk])
    · rintro ⟨h1, h2⟩
      rw [gsl2_rule, if_pos h1, if_pos h2]
      rfl

theorem gsl3_rule_isOk_iff {V C : Type} [DecidableEq C] (G : Graph V)
    (coloring : V → C) (palette : List C) (T t s : ℚ) :
    exceptOk (gsl3_rule G coloring palette T t s) = true ↔
      gsl3_valid_params palette T t s := by
  rcases palette with _ | ⟨g, _ | ⟨rd, _ | ⟨y, r⟩⟩⟩
  · simp [gsl3_rule, gsl3_valid_params, exceptOk]
  · simp [gsl3_rule, gsl3_valid_params, exceptOk, dedup_short3a g]
  · simp [gsl3_rule, gsl3_valid_params, exceptOk, dedup_short3b g rd]
  · constructor
    · intro hok
      by_cases h1 : (g :: rd :: y :: r).dedup.length = 3
      · by_cases h2 : 0 ≤ T ∧ T ≤ 1 ∧ 0 ≤ s ∧ s ≤ 1 ∧ 0 ≤ t ∧ t ≤ 1
        · by_cases h3 : s + t ≤ T
          · exact ⟨h1, h2, h3⟩
          · rw [gsl3_rule, if_pos h1, if_pos h2, if_neg h3] at hok
            exact absurd hok (by simp [exceptOk])
        · rw [gsl3_rule, if_pos h1, if_neg h2] at hok
          exact absurd hok (by simp [exceptOk])
      · rw [gsl3_rule, if_neg h1] at hok
        exact absurd hok (by simp [exceptOk])
    · rintro ⟨h1, h2, h3⟩
      rw [gsl3_rule, if_pos h1, if_pos h2, if_pos h3]
      rfl

theorem gsl2_rule_invalid_indep {V C : Type} [DecidableEq C] (G G2 : Graph V)
    (coloring coloring2 : V → C) (palette : List C) (T : ℚ)
    (hnv : ¬ gsl2_valid_params palette T) :
    gsl2_rule G coloring palette T = gsl2_rule G2 coloring2 palette T := by
  rcases palette with _ | ⟨g, _ | ⟨y, r⟩⟩
  · simp [gsl2_rule]
  · simp [gsl2_rule, dedup_short2 g]
  · by_cases h1 : (g :: y :: r).dedup.length = 2
    · have h2 : ¬(0 ≤ T ∧ T ≤ 1) := fun h2 => hnv ⟨h1, h2⟩
      rw [gsl2_rule, if_pos h1, if_neg h2, gsl2_rule, if_pos h1, if_neg h2]
    · rw [gsl2_rule, if_neg h1, gsl2_rule, if_neg h1]

theorem gsl3_rule_invalid_indep {V C : Type} [DecidableEq C] (G G2 : Graph V)
    (coloring coloring2 : V → C) (palette : List C) (T t s : ℚ)
    (hnv : ¬ gsl3_valid_params palette T t s) :
    gsl3_rule G coloring palette T t s = gsl3_rule G2 coloring2 palette T t s := by
  rcases palette with _ | ⟨g, _ | ⟨rd, _ | ⟨y, r⟩⟩⟩
  · simp [gsl3_rule]
  · simp [gsl3_rule, dedup_short3a g]
  · simp [gsl3_rule, dedup_short3b g rd]
  · by_cases h1 : (g :: rd :: y :: r).dedup.length = 3
    · by_cases h2 : 0 ≤ T ∧ T ≤ 1 ∧ 0 ≤ s ∧ s ≤ 1 ∧ 0 ≤ t ∧ t ≤ 1
      · have h3 : ¬(s + t ≤ T) := fun h3 => hnv ⟨h1, h2, h3⟩
        rw [gsl3_rule, if_pos h1, if_pos h2, if_neg h3,
          gsl3_rule, if_pos h1, if_pos h2, if_neg h3]
      · rw [gsl3_rule, if_pos h1, if_neg h2, gsl3_rule, if_pos h1, if_neg h2]
    · rw [gsl3_rule, if_neg h1, gsl3_rule, if_neg h1]

/-- Claim C8: `gsl2_rule` succeeds exactly when its palette has exactly 2
distinct colors and `0 ≤ T ≤ 1`, and `gsl3_rule` exactly when its palette
has exactly 3 distinct colors, each of `T`, `t`, `s` lies in `[0, 1]` and
`s + t ≤ T`; with invalid parameters the resulting error value does not
depend on the graph or the coloring (the rejection happens before any
vertex is processed), and with valid parameters no error is raised. -/
theorem gsl_rules_reject_invalid_params {V C : Type} [DecidableEq C]
    (G G2 : Graph V) (coloring coloring2 : V → C)
    (palette2 : List C) (T2 : ℚ) (palette3 : List C) (T t s : ℚ) :
    (exceptOk (gsl2_rule G coloring palette2 T2) = true ↔
      gsl2_valid_params palette2 T2) ∧
    (exceptOk (gsl3_rule G coloring palette3 T t s) = true ↔
      gsl3_valid_params palette3 T t s) ∧
    (¬ gsl2_valid_params palette2 T2 →
      gsl2_rule G coloring palette2 T2 = gsl2_rule G2 coloring2 palette2 T2) ∧
    (¬ gsl3_valid_params palette3 T t s →
      gsl3_rule G coloring palette3 T t s = gsl3_rule G2 coloring2 palette3 T t s) :=
  ⟨gsl2_rule_isOk_iff G coloring palette2 T2,
   gsl3_rule_isOk_iff G coloring palette3 T t s,
   gsl2_rule_invalid_indep G G2 coloring coloring2 palette2 T2,
   gsl3_rule_invalid_indep G G2 coloring coloring2 palette3 T t s⟩

/-- Claim C3: in the GSL3 per-vertex decision, only the first matching case
of the five-case priority list fires: a vertex that satisfies the
weak-influence green-to-yellow condition (it is green, its green count is
below `t * num_neighbors` and its red count at least `s * num_neighbors`)
while also satisfying the strong-influence green condition (green count
above `T * num_neighbors`) is colored green, not yellow. -/
theorem gsl3_strong_influence_wins {C : Type} [DecidableEq C]
    (ncolors : List C) (x_color green red yellow : C) (T t s : ℚ)
    (hx : x_color = green)
    (hweak1 : (ncolors.count green : ℚ) < t * ncolors.length)
    (hweak2 : (ncolors.count red : ℚ) ≥ s * ncolors.length)
    (hstrong : (ncolors.count green : ℚ) > T * ncolors.length) :
    gsl3_vertex ncolors x_color green red yellow T t s = green := by
  unfold gsl3_vertex gsl3_decide
  rw [if_pos hstrong]

theorem gsl3_strong_influence_wins_witness :
    gsl3_vertex [0, 2, 2, 2] (0 : Nat) 0 1 2 (1 / 5) 1 0 = 0 :=
  gsl3_strong_influence_wins [0, 2, 2, 2] 0 0 1 2 (1 / 5) 1 0 rfl
    (by with_unfolding_all decide) (by with_unfolding_all decide)
    (by with_unfolding_all decide)

/-- Claim C1 (amended): in the GSL3 rule every neighbor is tallied whatever
its color: an extra neighbor colored outside the palette leaves the green
and red counts used in the threshold comparisons unchanged but still
increments `num_neighbors`, which is the total number of neighbors. -/
theorem gsl3_out_of_palette_neighbor_counts {C : Type} [DecidableEq C]
    (ncolors : List C) (b x_color green red yellow : C) (T t s : ℚ)
    (hbg : b ≠ green) (hbr : b ≠ red) :
    gsl3_vertex (b :: ncolors) x_color green red yellow T t s =
      gsl3_decide (ncolors.count green) (ncolors.count red) (ncolors.length + 1)
        x_color green red yellow T t s := by
  unfold gsl3_vertex
  rw [List.count_cons_of_ne (Ne.symm hbg), List.count_cons_of_ne (Ne.symm hbr),
    List.length_cons]

theorem gsl3_out_of_palette_neighbor_counts_witness :
    gsl3_vertex [(3 : Nat)] 0 0 1 2 (1 / 2) (1 / 4) 0 =
      gsl3_decide (([] : List Nat).count 0) (([] : List Nat).count 1)
        (([] : List Nat).length + 1) 0 0 1 2 (1 / 2) (1 / 4) 0 :=
  gsl3_out_of_palette_neighbor_counts [] 3 0 0 1 2 (1 / 2) (1 / 4) 0
    (by decide) (by decide)

/-- Claim C1 as stated is false of the code: a green vertex whose single
neighbor is colored 3, outside the palette `[0, 1, 2]`, turns yellow under
the source's tally (the out-of-palette neighbor raises `num_neighbors` to 1,
so the weak-influence case fires with `t = 1/4`, `s = 0`), while under the
palette-only tally the claim describes the vertex would keep its color
green. -/
theorem gsl3_counts_all_neighbors_cex :
    gsl3_vertex [(3 : Nat)] 0 0 1 2 (1 / 2) (1 / 4) 0 = 2 ∧
    gsl3_vertex_palette_only [(3 : Nat)] 0 0 1 2 (1 / 2) (1 / 4) 0 = 0 := by
  constructor
  · with_unfolding_all decide
  · with_unfolding_all decide

/-- Claim C2 is contradicted by the code: `run_rule_many_times` never
forwards its `num_steps` argument to `run_rule` (its own docstring says it
runs `run_rule(..., num_steps=num_steps)`), so every trial runs with the
default cap of 10.  Here a batch called with `num_steps = 1` reports its one
trial as stabilized, with a trajectory of length 4, although under the cap 1
that the claim prescribes the trial does not stabilize. -/
theorem run_rule_many_times_ignores_num_steps :
    run_rule_many_times (fun _ n => n - 1 : Unit → Nat → Nat) (some [0])
        (fun _ => ()) (fun _ _ => 3) (fun n c => if c = 0 then n else 0) 1 1 =
      .ok (1, some 4, some [(0, 3)], some [(0, 0)]) ∧
    (run_rule (fun n => n - 1 : Nat → Nat) 3 1).2 = false := by
  constructor
  · with_unfolding_all decide
  · with_unfolding_all decide

/-- Claim C9 (amended): provided `update_rule_kwargs` has a palette entry, a
batch with `num_runs = 0`, and more generally any batch in which no trial
stabilizes, returns `stabilized_count = 0` with the three mean fields absent
(`none`) and no divide-by-zero or other fault; without a palette entry even
a `num_runs = 0` call fails with a KeyError (see the counterexample), which
is the one correction to the claim. -/
theorem run_rule_many_times_no_stabilized_trials {GraphT α C : Type}
    [DecidableEq α] [DecidableEq C] [Inhabited α]
    (ur : GraphT → α → α) (palette : List C) (gg : Nat → GraphT)
    (cf : Nat → GraphT → α) (cc : α → C → Nat) (ns nr : Nat) :
    run_rule_many_times ur (some palette) gg cf cc ns 0 = .ok (0, none, none, none) ∧
    ((∀ i, i < nr → (run_rule (ur (gg i)) (cf i (gg i))).2 = false) →
      run_rule_many_times ur (some palette) gg cf cc ns nr =
        .ok (0, none, none, none)) := by
  constructor
  · rfl
  · intro h
    have hfil : (((List.range nr).map fun i =>
        run_rule (ur (gg i)) (cf i (gg i))).filter fun r => r.2) = [] := by
      rw [List.filter_eq_nil_iff]
      intro a ha
      obtain ⟨i, hi, rfl⟩ := List.mem_map.mp ha
      rw [h i (List.mem_range.mp hi)]
      exact Bool.false_ne_true
    rw [run_rule_many_times]
    dsimp only
    rw [hfil]
    rfl

/-- A `num_runs = 0` call whose `update_rule_kwargs` lacks a palette entry
faults with a KeyError instead of returning the degenerate statistics, so
claim C9 does not hold for every rule and parameters as stated. -/
theorem run_rule_many_times_zero_runs_cex :
    run_rule_many_times (fun _ n => n : Unit → Nat → Nat) (none : Option (List Nat))
      (fun _ => ()) (fun _ _ => 0) (fun _ _ => 0) 10 0 =
      .error "KeyError: palette" := rfl

/-- Claim C10: when `update_rule_kwargs` has no palette key,
`run_rule_many_times` fails with a KeyError read after the trial loop,
whatever the rule, the generators, the step cap and the number of runs, and
returns no statistics. -/
theorem run_rule_many_times_missing_palette {GraphT α C : Type}
    [DecidableEq α] [DecidableEq C] [Inhabited α]
    (ur : GraphT → α → α) (gg : Nat → GraphT) (cf : Nat → GraphT → α)
    (cc : α → C → Nat) (ns nr : Nat) :
    run_rule_many_times ur (none : Option (List C)) gg cf cc ns nr =
      .error "KeyError: palette" := rfl
